import Mathlib

/-!
Verification of the MCP coordinator engine (`src/mcp-coordinator/server.py`,
class `EnhancedAgentCoordinator`) against its natural-language specification.

Shallow embedding conventions:
* timestamps (`datetime.now()`, ISO strings) are modelled as natural numbers
  counting seconds; every operation takes the current time as an explicit
  `now` argument;
* `uuid.uuid4()` identifiers are modelled as explicit `String` parameters of
  the operation that would generate them;
* Python dicts are modelled as insertion-ordered association lists with
  replace-in-place update (`dictInsert`), matching Python dict semantics;
* Python float comparisons against the literal thresholds 0.3, 0.1 and 0.8
  are translated to exact integer-scaled comparisons (for example
  `tasks_failed > tasks_completed * 0.3` becomes
  `10 * tasks_failed > 3 * tasks_completed`); these coincide with the float
  comparison at all small inputs and in particular at every concrete input
  used below;
* durations and running averages (Python floats) are modelled as rationals;
* the md5 digest used for finding deduplication is modelled by its pre-image
  key string (md5 is a deterministic function of that string, and the claims
  about deduplication only compare findings with identical key data);
* file I/O, logging, asyncio scheduling and the MCP wire protocol are out of
  scope: `save_state` is modelled as the pure document it serializes, and the
  delayed `_complete_recovery` status flip is not modelled.
-/

namespace Coordinator

/-! ### String helpers (structural, kernel-evaluable)

`String.toLower`, `String.toUpper`, `String.splitOn` and `String.take` in
core Lean are defined by well-founded recursion on byte positions and do not
reduce inside `decide`; the helpers below implement the same operations by
structural recursion on the character list. -/

def charLower (c : Char) : Char :=
  if 'A' ≤ c ∧ c ≤ 'Z' then Char.ofNat (c.toNat + 32) else c

def charUpper (c : Char) : Char :=
  if 'a' ≤ c ∧ c ≤ 'z' then Char.ofNat (c.toNat - 32) else c

def strLower (s : String) : String := ⟨s.data.map charLower⟩

def strUpper (s : String) : String := ⟨s.data.map charUpper⟩

/-- Substring containment, as Python's `needle in hay`. -/
def containsAux (needle : List Char) : List Char → Bool
  | [] => needle.isEmpty
  | c :: cs => needle.isPrefixOf (c :: cs) || containsAux needle cs

def strContains (hay needle : String) : Bool := containsAux needle.data hay.data

/-- Python `str.split()` (whitespace words, empties dropped); only the space
character is treated as whitespace, which covers every string in scope. -/
def splitWordsAux (acc : List Char) : List Char → List String
  | [] => if acc.isEmpty then [] else [⟨acc.reverse⟩]
  | c :: cs =>
    if c == ' ' then
      if acc.isEmpty then splitWordsAux [] cs
      else ⟨acc.reverse⟩ :: splitWordsAux [] cs
    else splitWordsAux (c :: acc) cs

def splitWords (s : String) : List String := splitWordsAux [] s.data

/-- Python string slice `s[:n]`, by characters. -/
def strTake (s : String) (n : Nat) : String := ⟨s.data.take n⟩

/-! ### Association lists with Python dict semantics -/

def dictFind {α : Type} (d : List (String × α)) (k : String) : Option α :=
  (d.find? (fun p => p.1 == k)).map (·.2)

/-- Embeds `d[k] = v`: replace in place if the key exists, else append (Python dicts
preserve insertion order and update in place; keys are unique, so replacing
the first occurrence is replacement). -/
def dictInsert {α : Type} (d : List (String × α)) (k : String) (v : α) :
    List (String × α) :=
  match d with
  | [] => [(k, v)]
  | p :: ps => if p.1 == k then (k, v) :: ps else p :: dictInsert ps k v

def dictGetD {α : Type} (d : List (String × α)) (k : String) (v₀ : α) : α :=
  (dictFind d k).getD v₀

/-! ### Data model -/

/-- Embeds `AgentHealth` dataclass (server.py lines 56-63). -/
structure AgentHealth where
  last_heartbeat : Nat
  tasks_completed : Nat
  tasks_failed : Nat
  average_task_time : ℚ
  error_count : Nat
  recovery_count : Nat
deriving Repr, DecidableEq

/-- Agent record dict built by `register_agent` (lines 184-192). -/
structure Agent where
  id : String
  role : String
  capabilities : List String
  status : String
  registered_at : Nat
  last_seen : Nat
  version : String
deriving Repr, DecidableEq

/-- Entry of the `similar_tasks` context enrichment (lines 572-577). -/
structure SimilarTask where
  task_id : Option String
  description : Option String
  duration : Option ℚ
  similarity : ℚ
deriving Repr, DecidableEq

/-- Entry of the `similar_findings` context enrichment (lines 540-544). -/
structure SimilarFinding where
  id : String
  title : String
  resolution : String
deriving Repr, DecidableEq

/-- The task `context` map: caller-supplied `required_capabilities` plus the
enrichment keys written by `create_task` and `submit_audit_finding`. -/
structure TaskContext where
  required_capabilities : List String := []
  finding_id : Option String := none
  pattern : Option String := none
  similar_findings : List SimilarFinding := []
  related_findings : List String := []
  similar_tasks : List SimilarTask := []
deriving Repr, DecidableEq

/-- Task dict built by `create_task` (lines 234-248) plus the fields stamped
later by `get_next_task` and `update_task`. -/
structure Task where
  id : String
  type : String
  description : String
  priority : String
  priority_score : Nat
  status : String
  assigned_to : Option String
  context : TaskContext
  dependencies : List String
  created_at : Nat
  updated_at : Nat
  retry_count : Nat
  estimated_duration : ℚ
  started_at : Option Nat
  completed_at : Option Nat
  failed_at : Option Nat
  actual_duration : Option ℚ
  result : Option String
deriving Repr, DecidableEq

/-- Finding dict as stored by `submit_audit_finding` (lines 468-509): the
caller-supplied fields plus id, timestamp, status, hash and, when not a
duplicate, pattern bookkeeping and the spawned task id. -/
structure Finding where
  id : String
  title : String
  description : String
  severity : String
  category : String
  file_path : Option String
  line_number : Option Nat
  submitted_at : Nat
  status : String
  hash : String
  pattern : Option String
  pattern_count : Option Nat
  task_id : Option String
  resolution : Option String
deriving Repr, DecidableEq

/-- Caller-supplied argument map of the `submit_audit_finding` tool. -/
structure FindingInput where
  title : String
  description : String
  severity : String
  category : String
  file_path : Option String := none
  line_number : Option Nat := none
deriving Repr, DecidableEq

/-- Entry of the bounded `task_history` deque (lines 458-462). These records
carry only the three keys below; in particular none of them ever has a
`description` key. -/
structure HistoryRecord where
  task_id : String
  status_change : String
  timestamp : Nat
deriving Repr, DecidableEq

/-- Entry of the per-agent `context_memory` list (lines 323-327). -/
structure ContextMemEntry where
  task_id : String
  type : String
  started : Nat
deriving Repr, DecidableEq

/-- Values stored in the nested `knowledge_base` dict: `task_patterns`
entries (lines 257-260), `task_durations` entries (lines 611-616) and
`agent_registry` entries (lines 211-215). -/
inductive KBValue where
  | taskPattern (count : Nat) (last_created : Nat)
  | taskDuration (count : Nat) (total_duration : ℚ) (average_duration : ℚ)
  | agentInfo (role : String) (capabilities : List String) (registered : Nat)
deriving Repr, DecidableEq

/-- The mutable state of one `EnhancedAgentCoordinator` instance
(lines 66-98).  Fields that only configure I/O (`base_dir`, `data_dir`,
`allowed_commands`, `worktrees`, `_tasks`) are outside the coordination
engine and are not modelled. -/
structure CoordState where
  agents : List (String × Agent)
  agent_health : List (String × AgentHealth)
  task_queue : List Task
  audit_findings : List Finding
  task_history : List HistoryRecord
  agent_capabilities_cache : List (String × List String)
  task_retry_count : List (String × Nat)
  max_retries : Nat
  agent_load_balance : List (String × Nat)
  knowledge_base : List (String × List (String × KBValue))
  context_memory : List (String × List ContextMemEntry)
  finding_patterns : List (String × Nat)
deriving Repr, DecidableEq

/-- Fresh coordinator state (constructor body, with no persisted data). -/
def initState : CoordState :=
  { agents := [], agent_health := [], task_queue := [], audit_findings := []
  , task_history := [], agent_capabilities_cache := [], task_retry_count := []
  , max_retries := 3, agent_load_balance := [], knowledge_base := []
  , context_memory := [], finding_patterns := [] }

/-! ### Scheduler helpers -/

/-- Embeds `TaskPriority[priority.upper()].value` (lines 43-47, 227); `none` models
the `KeyError` raised on an unknown priority string. -/
def priorityScoreOf (p : String) : Option Nat :=
  let u := strUpper p
  if u == "CRITICAL" then some 4
  else if u == "HIGH" then some 3
  else if u == "MEDIUM" then some 2
  else if u == "LOW" then some 1
  else none

/-- Role → keyword table of `_is_task_suitable_for_role` (lines 341-347). -/
def roleTaskMapping (role : String) : List String :=
  if role == "auditor" then
    ["audit", "scan", "check", "review", "analyze", "inspect", "security"]
  else if role == "planner" then
    ["plan", "design", "architect", "breakdown", "strategy", "organize"]
  else if role == "coder" then
    ["implement", "code", "fix", "refactor", "develop", "build", "create"]
  else if role == "tester" then
    ["test", "verify", "validate", "qa", "check", "assert"]
  else if role == "reviewer" then
    ["review", "approve", "check_pr", "merge", "feedback", "comment"]
  else []

/-- Embeds `_is_task_suitable_for_role` (lines 339-355). -/
def isTaskSuitableForRole (t : Task) (role : String) : Bool :=
  (roleTaskMapping role).any fun kw =>
    strContains (strLower t.type) kw || strContains (strLower t.description) kw

/-- Embeds `_are_dependencies_met` (lines 357-367): every dependency id must name a
task in the queue whose status is `completed`. -/
def dependenciesMet (queue : List Task) (t : Task) : Bool :=
  t.dependencies.all fun dep =>
    match queue.find? (fun q => q.id == dep) with
    | none => false
    | some q => q.status == "completed"

/-- Embeds `_agent_has_required_capabilities` (lines 369-375). -/
def agentHasRequiredCapabilities (t : Task) (caps : List String) : Bool :=
  t.context.required_capabilities.all fun c => caps.contains c

/-- Embeds `_is_agent_overloaded` (lines 377-389). -/
def isAgentOverloaded (s : CoordState) (agent_id : String) : Bool :=
  let current_load := dictGetD s.agent_load_balance agent_id 0
  match dictFind s.agent_health agent_id with
  | some h =>
    if h.error_count > 5 then current_load ≥ 1
    else if h.average_task_time > 3600 then current_load ≥ 2
    else current_load ≥ 3
  | none => current_load ≥ 3

/-- Embeds `_insert_task_by_priority` (lines 264-278), written as the recursion the
index-scan loop performs: the new task lands immediately before the first
pending task of strictly lower priority score, else at the end (the
`.get('priority_score', 2)` default never fires: every stored task has the
field). -/
def insertTaskByPriority (task : Task) : List Task → List Task
  | [] => [task]
  | e :: es =>
    if e.status == "pending" && task.priority_score > e.priority_score then
      task :: e :: es
    else e :: insertTaskByPriority task es

/-- Stable insertion step: place `a` before the first `b` with `le a b`
(ties keep arrival order, as Python's stable sort does). -/
def sortedInsertLe (le : Task → Task → Bool) (a : Task) : List Task → List Task
  | [] => [a]
  | b :: bs => if le a b then a :: b :: bs else b :: sortedInsertLe le a bs

/-- Stable insertion sort, modelling Python's stable `sorted`/`list.sort`. -/
def insertionSortLe (le : Task → Task → Bool) : List Task → List Task
  | [] => []
  | a :: as_ => sortedInsertLe le a (insertionSortLe le as_)

/-- Comparison behind `sorted(self.task_queue, key=priority_score,
reverse=True)` in `get_next_task` (line 292). -/
def scoreDescLe (a b : Task) : Bool := b.priority_score ≤ a.priority_score

/-- Comparison behind the `_task_optimizer_loop` re-sort key
`(status != pending, -priority_score, created_at)` (lines 799-803). -/
def taskStatusKey (t : Task) : Nat := if t.status == "pending" then 0 else 1

def optimizerLe (a b : Task) : Bool :=
  decide (taskStatusKey a < taskStatusKey b ∨
    (taskStatusKey a = taskStatusKey b ∧
      (b.priority_score < a.priority_score ∨
        (a.priority_score = b.priority_score ∧ a.created_at ≤ b.created_at))))

/-! ### Context enrichment and the knowledge base -/

/-- Embeds `_find_related_findings` (lines 548-559). -/
def findRelatedFindings (s : CoordState) (description : String) : List String :=
  let words := (splitWords (strLower description)).take 5
  ((s.audit_findings.filter fun f =>
    words.any fun w =>
      strContains (strLower f.title) w ||
      strContains (strLower f.description) w).map (·.id)).take 3

/-- Embeds `_find_similar_tasks` (lines 561-581) scans `task_history`, but every
history record is a `{task_id, status_change, timestamp}` dict (lines
458-462) and the `'description' in task` guard rejects all of them, so the
function always returns the empty list. -/
def findSimilarTasks (_s : CoordState) (_description : String) :
    List SimilarTask := []

/-- Per-type default duration table of `_estimate_task_duration`
(lines 594-602). -/
def defaultEstimate (task_type_lower : String) : ℚ :=
  if task_type_lower == "audit" then 300
  else if task_type_lower == "plan" then 600
  else if task_type_lower == "implement" then 1800
  else if task_type_lower == "test" then 900
  else if task_type_lower == "review" then 600
  else 600

/-- Embeds `_estimate_task_duration` (lines 583-602). -/
def estimateTaskDuration (s : CoordState) (task_type description : String) : ℚ :=
  let similar := findSimilarTasks s description
  let durations := similar.filterMap (·.duration)
  if durations.isEmpty then defaultEstimate (strLower task_type)
  else durations.sum / (durations.length : ℚ)

/-- Embeds `_update_knowledge_base` (lines 618-623). -/
def updateKnowledgeBase (kb : List (String × List (String × KBValue)))
    (category key : String) (value : KBValue) :
    List (String × List (String × KBValue)) :=
  let inner := dictGetD kb category []
  dictInsert kb category (dictInsert inner key value)

/-- Embeds `knowledge_base.get('task_patterns', {}).get(t, {}).get('count', 0)`. -/
def kbPatternCount (kb : List (String × List (String × KBValue)))
    (category key : String) : Nat :=
  match dictFind (dictGetD kb category []) key with
  | some (KBValue.taskPattern c _) => c
  | _ => 0

/-- Embeds `knowledge_base.get('task_durations', {}).get(t, {}).get(field, 0)`. -/
def kbDurationStats (kb : List (String × List (String × KBValue)))
    (key : String) : Nat × ℚ :=
  match dictFind (dictGetD kb "task_durations" []) key with
  | some (KBValue.taskDuration c tot _) => (c, tot)
  | _ => (0, 0)

/-- Bounded history append: `deque(maxlen=1000)` evicts the oldest entry
when full (line 83). -/
def pushHistory (h : List HistoryRecord) (r : HistoryRecord) :
    List HistoryRecord :=
  if h.length ≥ 1000 then h.drop 1 ++ [r] else h ++ [r]

/-! ### Operations -/

/-- Embeds `register_agent` (lines 180-217): idempotent upsert of the agent record,
fresh health record, capability cache and knowledge-base entry. -/
def registerAgent (s : CoordState) (agent_id role : String)
    (capabilities : List String) (now : Nat) : Agent × CoordState :=
  let ag : Agent :=
    { id := agent_id, role := role, capabilities := capabilities
    , status := "active", registered_at := now, last_seen := now
    , version := "2.0" }
  let health : AgentHealth :=
    { last_heartbeat := now, tasks_completed := 0, tasks_failed := 0
    , average_task_time := 0, error_count := 0, recovery_count := 0 }
  let s :=
    { s with
      agents := dictInsert s.agents agent_id ag
    , agent_health := dictInsert s.agent_health agent_id health
    , agent_capabilities_cache :=
        dictInsert s.agent_capabilities_cache agent_id capabilities
    , knowledge_base := updateKnowledgeBase s.knowledge_base "agent_registry"
        agent_id (KBValue.agentInfo role capabilities now) }
  (ag, s)

/-- Embeds `create_task` (lines 219-262).  `task_id` models the generated
`uuid.uuid4()`; `none` models the `KeyError` raised by an unknown priority
string (no state is mutated before that lookup). -/
def createTask (s : CoordState) (task_type description priority : String)
    (assigned_to : Option String) (context : Option TaskContext)
    (dependencies : Option (List String)) (task_id : String) (now : Nat) :
    Option (Task × CoordState) :=
  match priorityScoreOf priority with
  | none => none
  | some score =>
    let base : TaskContext := context.getD {}
    let ctx :=
      { base with
        related_findings := findRelatedFindings s description
      , similar_tasks := findSimilarTasks s description }
    let task : Task :=
      { id := task_id, type := task_type, description := description
      , priority := priority, priority_score := score, status := "pending"
      , assigned_to := assigned_to, context := ctx
      , dependencies := dependencies.getD [], created_at := now
      , updated_at := now, retry_count := 0
      , estimated_duration := estimateTaskDuration s task_type description
      , started_at := none, completed_at := none, failed_at := none
      , actual_duration := none, result := none }
    let prev := kbPatternCount s.knowledge_base "task_patterns" task_type
    let s :=
      { s with
        task_queue := insertTaskByPriority task s.task_queue
      , knowledge_base := updateKnowledgeBase s.knowledge_base "task_patterns"
          task_type (KBValue.taskPattern (prev + 1) now) }
    some (task, s)

/-- Embeds `get_next_task` (lines 280-337): heartbeat/status refresh, then the first
pending task of the score-descending sorted view that passes the role,
dependency, capability and load checks is assigned in place.  A registered
agent always has a health record; on an agent id present in `agents` but
absent from `agent_health` the source would raise `KeyError` (not
modelled). -/
def refreshAgent (s : CoordState) (agent_id : String) (now : Nat) : CoordState :=
  match dictFind s.agents agent_id with
  | some ag =>
    let ag2 := { ag with last_seen := now, status := "busy" }
    let sA := { s with agents := dictInsert s.agents agent_id ag2 }
    match dictFind sA.agent_health agent_id with
    | some h =>
      let h2 := { h with last_heartbeat := now }
      { sA with agent_health := dictInsert sA.agent_health agent_id h2 }
    | none => sA
  | none => s

/-- The in-place mutation performed on the chosen task (lines 313-317). -/
def assignedOf (chosen : Task) (agent_id : String) (now : Nat) : Task :=
  { chosen with
    status := "in_progress", assigned_to := some agent_id
  , started_at := some now, updated_at := now }

/-- The candidate filter of the `for task in sorted_tasks` loop
(lines 294-311). -/
def candidateOk (s1 : CoordState) (agent_id agent_role : String)
    (caps : List String) (t : Task) : Bool :=
  t.status == "pending" &&
  isTaskSuitableForRole t agent_role &&
  dependenciesMet s1.task_queue t &&
  agentHasRequiredCapabilities t caps &&
  !(isAgentOverloaded s1 agent_id)

def getNextTask (s : CoordState) (agent_id agent_role : String) (now : Nat) :
    Option Task × CoordState :=
  let s1 := refreshAgent s agent_id now
  let caps := dictGetD s1.agent_capabilities_cache agent_id []
  let sorted_tasks := insertionSortLe scoreDescLe s1.task_queue
  match sorted_tasks.find? (candidateOk s1 agent_id agent_role caps) with
  | some chosen =>
    let assigned := assignedOf chosen agent_id now
    let s2 :=
      { s1 with
        task_queue :=
          s1.task_queue.map fun t => if t.id == chosen.id then assigned else t
      , agent_load_balance := dictInsert s1.agent_load_balance agent_id
          (dictGetD s1.agent_load_balance agent_id 0 + 1)
      , context_memory := dictInsert s1.context_memory agent_id
          (dictGetD s1.context_memory agent_id [] ++
            [{ task_id := chosen.id, type := chosen.type, started := now }]) }
    (some assigned, s2)
  | none =>
    let s2 :=
      match dictFind s1.agents agent_id with
      | some ag =>
        let ag2 := { ag with status := "idle" }
        { s1 with agents := dictInsert s1.agents agent_id ag2 }
      | none => s1
    (none, s2)

/-- Health bookkeeping of the `completed` branch of `update_task`
(lines 414-421): completed counter, then running average folded with the new
duration. -/
def healthOnComplete (hm : List (String × AgentHealth))
    (assigned : Option String) (duration : ℚ) : List (String × AgentHealth) :=
  match assigned with
  | none => hm
  | some aid =>
    match dictFind hm aid with
    | none => hm
    | some h =>
      let completed := h.tasks_completed + 1
      let total := h.average_task_time * ((completed : ℚ) - 1) + duration
      let h2 :=
        { h with
          tasks_completed := completed
        , average_task_time := total / (completed : ℚ) }
      dictInsert hm aid h2

/-- Health bookkeeping of the `failed` branch of `update_task`
(lines 433-437). -/
def healthOnFail (hm : List (String × AgentHealth)) (assigned : Option String) :
    List (String × AgentHealth) :=
  match assigned with
  | none => hm
  | some aid =>
    match dictFind hm aid with
    | none => hm
    | some h =>
      let h2 :=
        { h with
          tasks_failed := h.tasks_failed + 1
        , error_count := h.error_count + 1 }
      dictInsert hm aid h2

/-- Embeds `agent_load_balance[a] = max(0, agent_load_balance[a] - 1)`
(lines 424-425, 447-448). -/
def decLoad (lb : List (String × Nat)) (aid : String) : List (String × Nat) :=
  dictInsert lb aid (dictGetD lb aid 0 - 1)

/-- Embeds `_learn_from_task_completion` (lines 604-616). -/
def learnFromTaskCompletion (s : CoordState) (t : Task) : CoordState :=
  let actual := t.actual_duration.getD 0
  if 0 < actual then
    let (c, tot) := kbDurationStats s.knowledge_base t.type
    let v := KBValue.taskDuration (c + 1) (tot + actual)
      ((tot + actual) / ((c : ℚ) + 1))
    { s with knowledge_base :=
        updateKnowledgeBase s.knowledge_base "task_durations" t.type v }
  else s

/-- First task in the queue with the given id replaced by `t'`; the source
mutates the dict found by the `for t in self.task_queue` scan (393-397). -/
def replaceFirstTask (tid : String) (t' : Task) : List Task → List Task
  | [] => []
  | t :: ts => if t.id == tid then t' :: ts else t :: replaceFirstTask tid t' ts

/-- Embeds `update_task` (lines 391-466).  `none` models the `ValueError` raised on
an unknown task id.  In the `failed` retry branch `assigned_to` is cleared
*before* the load-balance guard `if task.get('assigned_to')` is evaluated
(lines 444-448), which the embedding reproduces verbatim. -/
def updateTask (s : CoordState) (task_id status : String)
    (result : Option String) (now : Nat) : Option (CoordState × Task) :=
  match s.task_queue.find? (fun t => t.id == task_id) with
  | none => none
  | some t0 =>
    let previous_status := t0.status
    let t1 := { t0 with status := status, updated_at := now }
    let step : Task × CoordState :=
      if status == "completed" then
        let ta := { t1 with completed_at := some now }
        let (tb, sb) :=
          match ta.started_at with
          | some st =>
            let duration : ℚ := ((now : Int) - (st : Int) : Int)
            let tc := { ta with actual_duration := some duration }
            (tc, { s with agent_health :=
                healthOnComplete s.agent_health tc.assigned_to duration })
          | none => (ta, s)
        let sc :=
          match tb.assigned_to with
          | some aid => { sb with agent_load_balance := decLoad sb.agent_load_balance aid }
          | none => sb
        (tb, learnFromTaskCompletion sc tb)
      else if status == "failed" then
        let ta := { t1 with failed_at := some now }
        let sa := { s with agent_health := healthOnFail s.agent_health ta.assigned_to }
        if ta.retry_count < s.max_retries then
          let tb :=
            { ta with
              retry_count := ta.retry_count + 1
            , status := "pending", assigned_to := none }
          let sb :=
            match tb.assigned_to with
            | some aid => { sa with agent_load_balance := decLoad sa.agent_load_balance aid }
            | none => sa
          (tb, sb)
        else (ta, sa)
      else (t1, s)
    let t2 := step.1
    let s2 := step.2
    let t3 := match result with | some r => { t2 with result := some r } | none => t2
    let rec_ : HistoryRecord :=
      { task_id := task_id
      , status_change := previous_status ++ " -> " ++ status
      , timestamp := now }
    let s3 :=
      { s2 with
        task_queue := replaceFirstTask task_id t3 s2.task_queue
      , task_history := pushHistory s2.task_history rec_ }
    some (s3, t3)

/-! ### Findings -/

/-- Embeds `_generate_finding_hash` (lines 511-520): the dedup key is
`category|file_path|line_number|title[:50]`; the md5 digest of that string is
modelled by the string itself (md5 is deterministic, and every claim below
only compares findings with identical key data). -/
def generateFindingHash (f : FindingInput) : String :=
  f.category ++ "|" ++ f.file_path.getD "" ++ "|" ++
    (match f.line_number with | some n => toString n | none => "") ++ "|" ++
    strTake f.title 50

/-- Embeds `_is_duplicate_finding` (lines 522-527). -/
def isDuplicateFinding (s : CoordState) (finding_hash : String) : Bool :=
  s.audit_findings.any fun existing =>
    existing.hash == finding_hash && existing.status != "resolved"

/-- Embeds `_extract_finding_pattern` (lines 529-531). -/
def extractFindingPattern (f : FindingInput) : String :=
  f.category ++ ":" ++ f.severity

/-- Embeds `_find_similar_findings` (lines 533-546): same-category findings among
the last 50, first 5 kept. -/
def findSimilarFindings (s : CoordState) (f : FindingInput) : List Finding :=
  ((s.audit_findings.drop (s.audit_findings.length - 50)).filter
    fun past => past.category == f.category)

def similarFindingSummaries (s : CoordState) (f : FindingInput) :
    List SimilarFinding :=
  ((findSimilarFindings s f).map fun past =>
    { id := past.id, title := past.title
    , resolution := past.resolution.getD "pending" }).take 5

/-- Embeds `submit_audit_finding` (lines 468-509).  `finding_id` and `task_id`
model the two `uuid.uuid4()` calls.  The source appends the finding dict and
then mutates it with the spawned task id; since both refer to the same
object, the embedding appends the finalized record.  `none` models the
`KeyError` raised inside `create_task` on an unknown severity. -/
def submitAuditFinding (s : CoordState) (inp : FindingInput)
    (finding_id task_id : String) (now : Nat) :
    Option (Finding × CoordState) :=
  let finding_hash := generateFindingHash inp
  if isDuplicateFinding s finding_hash then
    let finding : Finding :=
      { id := finding_id, title := inp.title, description := inp.description
      , severity := inp.severity, category := inp.category
      , file_path := inp.file_path, line_number := inp.line_number
      , submitted_at := now, status := "duplicate", hash := finding_hash
      , pattern := none, pattern_count := none, task_id := none
      , resolution := none }
    some (finding, s)
  else
    let pat := extractFindingPattern inp
    let pcount := dictGetD s.finding_patterns pat 0 + 1
    let similar := similarFindingSummaries s inp
    let finding : Finding :=
      { id := finding_id, title := inp.title, description := inp.description
      , severity := inp.severity, category := inp.category
      , file_path := inp.file_path, line_number := inp.line_number
      , submitted_at := now, status := "new", hash := finding_hash
      , pattern := some pat, pattern_count := some pcount
      , task_id := some task_id, resolution := none }
    let s1 :=
      { s with
        finding_patterns := dictInsert s.finding_patterns pat pcount
      , audit_findings := s.audit_findings ++ [finding] }
    let ctx : TaskContext :=
      { finding_id := some finding_id, pattern := some pat
      , similar_findings := similar }
    match createTask s1 "plan"
        ("Create implementation plan for: " ++ inp.title) inp.severity
        none (some ctx) none task_id now with
    | none => none
    | some (_, s2) => some (finding, s2)

/-! ### Health reporting -/

structure HealthMetrics where
  last_heartbeat : Nat
  time_since_heartbeat : Int
  tasks_completed : Nat
  tasks_failed : Nat
  success_rate : ℚ
  average_task_time : ℚ
  error_count : Nat
  recovery_count : Nat
  current_load : Nat
deriving Repr, DecidableEq

structure HealthReport where
  agent_id : String
  role : String
  status : String
  health : String
  metrics : Option HealthMetrics
deriving Repr, DecidableEq

/-- Embeds `get_agent_health_report` (lines 625-665).  `none` models the
`ValueError` raised on an unknown agent id.  The two failure-ratio guards
`tasks_failed > tasks_completed * 0.3` and `... * 0.1` are written as the
exact integer comparisons `10 * failed > 3 * completed` and
`10 * failed > completed`. -/
def getAgentHealthReport (s : CoordState) (agent_id : String) (now : Nat) :
    Option HealthReport :=
  match dictFind s.agents agent_id with
  | none => none
  | some agent =>
    match dictFind s.agent_health agent_id with
    | none =>
      some { agent_id := agent_id, role := agent.role, status := agent.status
           , health := "unknown", metrics := none }
    | some h =>
      let time_since_heartbeat : Int := (now : Int) - (h.last_heartbeat : Int)
      let health_str :=
        if time_since_heartbeat > 300 then "critical"
        else if h.error_count > 10 ∨
            10 * h.tasks_failed > 3 * h.tasks_completed then "poor"
        else if h.error_count > 5 ∨
            10 * h.tasks_failed > h.tasks_completed then "fair"
        else "good"
      let metrics : HealthMetrics :=
        { last_heartbeat := h.last_heartbeat
        , time_since_heartbeat := time_since_heartbeat
        , tasks_completed := h.tasks_completed
        , tasks_failed := h.tasks_failed
        , success_rate := (h.tasks_completed : ℚ) /
            (max 1 (h.tasks_completed + h.tasks_failed) : ℚ)
        , average_task_time := h.average_task_time
        , error_count := h.error_count
        , recovery_count := h.recovery_count
        , current_load := dictGetD s.agent_load_balance agent_id 0 }
      some { agent_id := agent_id, role := agent.role, status := agent.status
           , health := health_str, metrics := some metrics }

structure SystemTaskStats where
  total : Nat
  pending : Nat
  in_progress : Nat
  completed : Nat
  failed : Nat
  completion_rate : ℚ
deriving Repr, DecidableEq

structure SystemHealth where
  status : String
  agents_total : Nat
  agents_active : Nat
  agents_unhealthy : Nat
  tasks : SystemTaskStats
  findings_total : Nat
deriving Repr, DecidableEq

def countTasksWithStatus (queue : List Task) (st : String) : Nat :=
  (queue.filter fun t => t.status == st).length

/-- Agents whose health report scores `poor` or `critical` (lines 682-689);
the report of a registered agent never raises, so the `except: pass` never
fires. -/
def unhealthyAgentCount (s : CoordState) (now : Nat) : Nat :=
  (s.agents.filter fun p =>
    match getAgentHealthReport s p.1 now with
    | some r => r.health == "poor" || r.health == "critical"
    | none => false).length

/-- Embeds `get_system_health` (lines 667-715).  The reported completion rate is
`completed / max(1, completed + failed)`; the status guard
`completion_rate > 0.8` is written as the exact integer comparison
`5 * completed > 4 * max 1 (completed + failed)`.  The JSON-size and
pattern-dictionary report fields are presentation-only and omitted. -/
def getSystemHealth (s : CoordState) (now : Nat) : SystemHealth :=
  let completed_tasks := countTasksWithStatus s.task_queue "completed"
  let failed_tasks := countTasksWithStatus s.task_queue "failed"
  let denom := max 1 (completed_tasks + failed_tasks)
  let unhealthy := unhealthyAgentCount s now
  { status :=
      if unhealthy = 0 ∧ 5 * completed_tasks > 4 * denom then "healthy"
      else "degraded"
  , agents_total := s.agents.length
  , agents_active := (s.agents.filter fun p => p.2.status == "active").length
  , agents_unhealthy := unhealthy
  , tasks :=
      { total := s.task_queue.length
      , pending := countTasksWithStatus s.task_queue "pending"
      , in_progress := countTasksWithStatus s.task_queue "in_progress"
      , completed := completed_tasks
      , failed := failed_tasks
      , completion_rate := (completed_tasks : ℚ) / (denom : ℚ) }
  , findings_total := s.audit_findings.length }

/-! ### Recovery and the periodic aging pass -/

/-- Embeds `recover_agent` (lines 717-749): status to `recovering`, every
in-progress task of the agent reset to pending and unassigned, load zeroed,
error count reset.  The 30-second delayed flip to `active`
(`_complete_recovery`) is asynchronous and not modelled. -/
def recoverAgent (s : CoordState) (agent_id : String) (now : Nat) :
    Bool × CoordState :=
  match dictFind s.agents agent_id with
  | none => (false, s)
  | some agent =>
    let agent2 := { agent with status := "recovering" }
    let queue2 := s.task_queue.map fun t =>
      if t.assigned_to == some agent_id && t.status == "in_progress" then
        { t with status := "pending", assigned_to := none }
      else t
    let health2 :=
      match dictFind s.agent_health agent_id with
      | some h =>
        dictInsert s.agent_health agent_id
          { h with
            recovery_count := h.recovery_count + 1
          , error_count := 0, last_heartbeat := now }
      | none => s.agent_health
    (true,
      { s with
        agents := dictInsert s.agents agent_id agent2
      , task_queue := queue2
      , agent_load_balance := dictInsert s.agent_load_balance agent_id 0
      , agent_health := health2 })

/-- One iteration of `_task_optimizer_loop` (lines 781-806): every pending
task older than 30 minutes and below score 4 is boosted by one, then the
queue is re-sorted by `(status != pending, -priority_score, created_at)`
with a stable sort. -/
def agingPass (s : CoordState) (now : Nat) : CoordState :=
  let boosted := s.task_queue.map fun t =>
    if t.status == "pending" ∧ (now : Int) - (t.created_at : Int) > 1800 ∧
        t.priority_score < 4 then
      { t with priority_score := min 4 (t.priority_score + 1) }
    else t
  { s with task_queue := insertionSortLe optimizerLe boosted }

/-! ### State store -/

/-- Serialized form of one `AgentHealth` record (lines 146-153); the
ISO-format timestamp round-trips through `datetime.fromisoformat` and is
modelled by the numeric time itself. -/
structure HealthDoc where
  last_heartbeat : Nat
  tasks_completed : Nat
  tasks_failed : Nat
  average_task_time : ℚ
  error_count : Nat
  recovery_count : Nat
deriving Repr, DecidableEq

/-- The persisted state document written by `save_state` (lines 140-157):
top-level fields `agents`, `task_queue`, `audit_findings`,
`knowledge_base`, `agent_health`, `saved_at`. -/
structure StateDoc where
  agents : List (String × Agent)
  task_queue : List Task
  audit_findings : List Finding
  knowledge_base : List (String × List (String × KBValue))
  agent_health : List (String × HealthDoc)
  saved_at : Nat
deriving Repr, DecidableEq

def healthToDoc (h : AgentHealth) : HealthDoc :=
  { last_heartbeat := h.last_heartbeat
  , tasks_completed := h.tasks_completed
  , tasks_failed := h.tasks_failed
  , average_task_time := h.average_task_time
  , error_count := h.error_count
  , recovery_count := h.recovery_count }

def healthOfDoc (hd : HealthDoc) : AgentHealth :=
  { last_heartbeat := hd.last_heartbeat
  , tasks_completed := hd.tasks_completed
  , tasks_failed := hd.tasks_failed
  , average_task_time := hd.average_task_time
  , error_count := hd.error_count
  , recovery_count := hd.recovery_count }

/-- The document `save_state` serializes (lines 138-157); the temp-file
write, backup rename and atomic rename are file-system concerns outside the
model. -/
def saveStateDoc (s : CoordState) (now : Nat) : StateDoc :=
  { agents := s.agents
  , task_queue := s.task_queue
  , audit_findings := s.audit_findings
  , knowledge_base := s.knowledge_base
  , agent_health := s.agent_health.map fun p => (p.1, healthToDoc p.2)
  , saved_at := now }

/-- Embeds `_restore_state` (lines 120-136), applied to the state of a freshly
constructed coordinator: only the five persisted collections are replaced
(the source mutates `self.agent_health` per entry; on a fresh instance that
dict is empty, so the result is exactly the restored entries). -/
def restoreState (doc : StateDoc) (s : CoordState) : CoordState :=
  { s with
    agents := doc.agents
  , task_queue := doc.task_queue
  , audit_findings := doc.audit_findings
  , knowledge_base := doc.knowledge_base
  , agent_health := doc.agent_health.map fun p => (p.1, healthOfDoc p.2) }

/-! ### Operation sequences (for reachability claims) -/

/-- The operations named by the queue-ordering claim, with the data each
call would carry; identifiers and timestamps are explicit. -/
inductive Op where
  | createT (task_type description priority : String)
      (assigned_to : Option String) (context : Option TaskContext)
      (dependencies : Option (List String)) (task_id : String) (now : Nat)
  | getNextT (agent_id agent_role : String) (now : Nat)
  | updateT (task_id status : String) (result : Option String) (now : Nat)
  | recoverT (agent_id : String) (now : Nat)
  | agingT (now : Nat)
deriving Repr, DecidableEq

/-- Effect of one operation on the state; an operation that raises
(`create_task` on a bad priority, `update_task` on an unknown id) mutates
nothing before raising, so it leaves the state unchanged. -/
def applyOp (s : CoordState) : Op → CoordState
  | Op.createT ty de pr asg ctx deps tid now =>
    match createTask s ty de pr asg ctx deps tid now with
    | some (_, s') => s'
    | none => s
  | Op.getNextT aid role now => (getNextTask s aid role now).2
  | Op.updateT tid st res now =>
    match updateTask s tid st res now with
    | some (s', _) => s'
    | none => s
  | Op.recoverT aid now => (recoverAgent s aid now).2
  | Op.agingT now => agingPass s now

def applyOps (s : CoordState) (ops : List Op) : CoordState :=
  ops.foldl applyOp s

/-- Priority scores of the pending tasks of a queue, in queue order. -/
def pendingScores : List Task → List Nat
  | [] => []
  | t :: ts =>
    if t.status == "pending" then t.priority_score :: pendingScores ts
    else pendingScores ts

/-- Insertion of a score into a descending score list, as
`insertTaskByPriority` acts on the pending subsequence. -/
def insertDesc (x : Nat) : List Nat → List Nat
  | [] => [x]
  | y :: ys => if x > y then x :: y :: ys else y :: insertDesc x ys

/-- The operations under which the pending-priority queue invariant is
preserved (`update_task` failure-requeue and `recover_agent` reset an
in-progress task to pending in place and can break it). -/
def safeOp : Op → Bool
  | Op.createT _ _ _ _ _ _ _ _ => true
  | Op.getNextT _ _ _ => true
  | Op.agingT _ => true
  | Op.updateT _ _ _ _ => false
  | Op.recoverT _ _ => false

/-- Operation trace refuting the unrestricted queue-ordering claim: a low
task is created and assigned, a critical task is created behind it, then the
failure-requeue puts the low task back to pending ahead of the critical
one. -/
def c1DemoOps : List Op :=
  [ Op.createT "implement" "implement feature alpha" "low" none none none
      "t1" 0
  , Op.getNextT "a1" "coder" 0
  , Op.createT "implement" "implement feature beta" "critical" none none none
      "t2" 0
  , Op.updateT "t1" "failed" none 5 ]

/-- A trace inside the restricted operation set, used to instantiate the
amended queue-ordering theorem. -/
def c1SafeOps : List Op :=
  [ Op.createT "implement" "implement feature alpha" "low" none none none
      "t1" 0
  , Op.createT "implement" "implement feature beta" "critical" none none none
      "t2" 0
  , Op.getNextT "a1" "coder" 1
  , Op.agingT 2000 ]

/-- Trace for the retry scenario: one task created, then `update_task`
reports `failed` three times (max-retries is 3). -/
def c5Ops3 : List Op :=
  [ Op.createT "implement" "implement retry demo" "medium" none none none
      "t1" 0
  , Op.updateT "t1" "failed" none 1
  , Op.updateT "t1" "failed" none 2
  , Op.updateT "t1" "failed" none 3 ]

/-- The retry trace extended by a fourth failure. -/
def c5Ops4 : List Op := c5Ops3 ++ [Op.updateT "t1" "failed" none 4]

/-- Concrete in-progress task used to instantiate the update-task
theorems. -/
def c10Task : Task :=
  { id := "t1", type := "implement", description := "implement load demo"
  , priority := "medium", priority_score := 2, status := "in_progress"
  , assigned_to := some "a1", context := {}, dependencies := []
  , created_at := 0, updated_at := 1, retry_count := 0
  , estimated_duration := 1800, started_at := some 1, completed_at := none
  , failed_at := none, actual_duration := none, result := none }

def c10State : CoordState :=
  { initState with
    task_queue := [c10Task]
  , agent_load_balance := [("a1", 1)] }

/-- Concrete task already at the retry bound, for the terminal-failure
clause. -/
def c4Task : Task := { c10Task with id := "t4", retry_count := 3 }

def c4State : CoordState := { initState with task_queue := [c4Task] }

/-- Concrete registered agent, health record and queue for the recovery
witness. -/
def c6Agent : Agent :=
  { id := "a1", role := "coder", capabilities := [], status := "busy"
  , registered_at := 0, last_seen := 1, version := "2.0" }

def c6Health : AgentHealth :=
  { last_heartbeat := 1, tasks_completed := 0, tasks_failed := 1
  , average_task_time := 0, error_count := 2, recovery_count := 0 }

def c6Other : Task :=
  { c10Task with
    id := "t2", status := "pending", assigned_to := none }

def c6State : CoordState :=
  { initState with
    agents := [("a1", c6Agent)]
  , agent_health := [("a1", c6Health)]
  , task_queue := [c10Task, c6Other] }

/-- The health-scoring rule exactly as the specification words it, with the
failure ratio `tasks_failed / (tasks_completed + tasks_failed)` (thresholds
0.3 and 0.1 written as exact integer comparisons); defined only for
comparison against `getAgentHealthReport`. -/
def specHealthScore (now : Nat) (h : AgentHealth) : String :=
  if (now : Int) - (h.last_heartbeat : Int) > 300 then "critical"
  else if h.error_count > 10 ∨
      10 * h.tasks_failed > 3 * (h.tasks_completed + h.tasks_failed) then
    "poor"
  else if h.error_count > 5 ∨
      10 * h.tasks_failed > h.tasks_completed + h.tasks_failed then "fair"
  else "good"

/-- The health-scoring rule the code actually implements, as a closed
formula over the raw health record: the failure guards compare
`tasks_failed` against `0.3 * tasks_completed` and `0.1 * tasks_completed`
(exact integer forms), not against the completed+failed ratio. -/
def amendedHealthScore (now : Nat) (h : AgentHealth) : String :=
  if (now : Int) - (h.last_heartbeat : Int) > 300 then "critical"
  else if h.error_count > 10 ∨
      10 * h.tasks_failed > 3 * h.tasks_completed then "poor"
  else if h.error_count > 5 ∨
      10 * h.tasks_failed > h.tasks_completed then "fair"
  else "good"

/-- Agent with 3 completed and 1 failed task and no errors: failed/completed
is 1/3 > 0.3 but failed/(completed+failed) is 1/4 ≤ 0.3. -/
def c7Health : AgentHealth :=
  { last_heartbeat := 100, tasks_completed := 3, tasks_failed := 1
  , average_task_time := 0, error_count := 0, recovery_count := 0 }

def c7State : CoordState :=
  { initState with
    agents := [("a1", c6Agent)]
  , agent_health := [("a1", c7Health)] }

/-- The system-status rule exactly as the specification words it: completion
rate completed/(completed+failed) with a zero denominator treated as rate 1,
healthy iff no unhealthy agents and rate > 0.8 (exact integer form); defined
only for comparison against `getSystemHealth`. -/
def specSystemStatus (s : CoordState) (now : Nat) : String :=
  let completed := countTasksWithStatus s.task_queue "completed"
  let failed := countTasksWithStatus s.task_queue "failed"
  if unhealthyAgentCount s now = 0 ∧
      (completed + failed = 0 ∨ 5 * completed > 4 * (completed + failed))
  then "healthy" else "degraded"

/-- Concrete finding input for the deduplication witness (the spec's
SQL-injection scenario). -/
def c2Input : FindingInput :=
  { title := "SQL Injection", description := "injection in query"
  , severity := "critical", category := "security"
  , file_path := some "a.py", line_number := some 10 }

/-- Completed dependency task and a pending dependent task for the
assignment witness. -/
def c3Dep : Task :=
  { c10Task with
    id := "d1", status := "completed", assigned_to := none
  , description := "implement base" }

def c3Task : Task :=
  { c10Task with
    id := "t1", status := "pending", assigned_to := none
  , dependencies := ["d1"], description := "implement follow-up" }

def c3State : CoordState := { initState with task_queue := [c3Dep, c3Task] }

/-! ### Lemmas: dictionaries -/

theorem dictFind_dictInsert_self {α : Type} (d : List (String × α))
    (k : String) (v : α) : dictFind (dictInsert d k v) k = some v := by
  induction d with
  | nil => simp [dictInsert, dictFind]
  | cons p ps ih =>
    by_cases h : p.1 = k
    · simp [dictInsert, dictFind, h]
    · have hb : (p.1 == k) = false := by simpa using h
      simpa [dictInsert, dictFind, hb] using ih

theorem dictFind_dictInsert_ne {α : Type} (d : List (String × α))
    (k k' : String) (v : α) (hne : k' ≠ k) :
    dictFind (dictInsert d k v) k' = dictFind d k' := by
  have hkk : (k == k') = false := by simpa using Ne.symm hne
  induction d with
  | nil => simp [dictInsert, dictFind, hkk]
  | cons p ps ih =>
    by_cases h : p.1 = k
    · have hb : (p.1 == k) = true := by simpa using h
      simp [dictInsert, dictFind, hb, hkk, h]
    · have hb : (p.1 == k) = false := by simpa using h
      by_cases h' : p.1 = k'
      · have hb' : (p.1 == k') = true := by simpa using h'
        simp [dictInsert, dictFind, hb, hb']
      · have hb' : (p.1 == k') = false := by simpa using h'
        simpa [dictInsert, dictFind, hb, hb'] using ih

/-! ### Lemmas: queue helpers -/

theorem mem_replaceFirstTask {tid : String} {t' u : Task} :
    ∀ {l : List Task}, u ∈ replaceFirstTask tid t' l → u = t' ∨ u ∈ l := by
  intro l
  induction l with
  | nil => simp [replaceFirstTask]
  | cons t ts ih =>
    by_cases h : t.id == tid
    · simp only [replaceFirstTask, h, if_true, List.mem_cons]
      rintro (rfl | hu)
      · exact Or.inl rfl
      · exact Or.inr (Or.inr hu)
    · simp only [replaceFirstTask, h, Bool.false_eq_true, if_false,
        List.mem_cons]
      rintro (rfl | hu)
      · exact Or.inr (Or.inl rfl)
      · rcases ih hu with h1 | h1
        · exact Or.inl h1
        · exact Or.inr (Or.inr h1)

theorem insertTaskByPriority_perm (t : Task) (l : List Task) :
    (insertTaskByPriority t l).Perm (t :: l) := by
  induction l with
  | nil => simp [insertTaskByPriority]
  | cons e es ih =>
    by_cases h : e.status == "pending" && t.priority_score > e.priority_score
    · simp [insertTaskByPriority, h]
    · simp only [insertTaskByPriority, h, Bool.false_eq_true, if_false]
      exact (ih.cons e).trans (List.Perm.swap t e es)

theorem insertTaskByPriority_length (t : Task) (l : List Task) :
    (insertTaskByPriority t l).length = l.length + 1 := by
  simpa using (insertTaskByPriority_perm t l).length_eq

/-! ### Lemmas: pending-priority ordering -/

theorem mem_insertDesc {x a : Nat} :
    ∀ {l : List Nat}, a ∈ insertDesc x l → a = x ∨ a ∈ l := by
  intro l
  induction l with
  | nil => simp [insertDesc]
  | cons y ys ih =>
    by_cases h : x > y
    · simp only [insertDesc, h, if_true, List.mem_cons]
      rintro (rfl | hu)
      · exact Or.inl rfl
      · exact Or.inr hu
    · simp only [insertDesc, h, if_false, List.mem_cons]
      rintro (rfl | hu)
      · exact Or.inr (Or.inl rfl)
      · rcases ih hu with h1 | h1
        · exact Or.inl h1
        · exact Or.inr (Or.inr h1)

theorem pairwise_ge_insertDesc {x : Nat} :
    ∀ {l : List Nat}, l.Pairwise (· ≥ ·) →
      (insertDesc x l).Pairwise (· ≥ ·) := by
  intro l
  induction l with
  | nil => intro _; simp [insertDesc]
  | cons y ys ih =>
    intro hp
    rcases List.pairwise_cons.mp hp with ⟨hy, hys⟩
    by_cases h : x > y
    · simp only [insertDesc, h, if_true]
      refine List.pairwise_cons.mpr ⟨?_, hp⟩
      intro b hb
      rcases List.mem_cons.mp hb with rfl | hb
      · exact Nat.le_of_lt h
      · exact le_trans (hy b hb) (Nat.le_of_lt h)
    · simp only [insertDesc, h, if_false]
      refine List.pairwise_cons.mpr ⟨?_, ih hys⟩
      intro b hb
      rcases mem_insertDesc hb with rfl | hb
      · exact Nat.le_of_not_lt h
      · exact hy b hb

theorem pendingScores_insertTaskByPriority {t : Task}
    (ht : t.status = "pending") : ∀ (l : List Task),
    pendingScores (insertTaskByPriority t l) =
      insertDesc t.priority_score (pendingScores l) := by
  intro l
  induction l with
  | nil => simp [insertTaskByPriority, pendingScores, insertDesc, ht]
  | cons e es ih =>
    by_cases hp : e.status = "pending"
    · by_cases hgt : t.priority_score > e.priority_score
      · simp [insertTaskByPriority, pendingScores, insertDesc, ht, hp, hgt]
      · simp [insertTaskByPriority, pendingScores, insertDesc, ht, hp, hgt, ih]
    · have hb : (e.status == "pending") = false := by simpa using hp
      simp [insertTaskByPriority, pendingScores, insertDesc, ht, hb, ih]

theorem pendingScores_map_sublist (f : Task → Task) :
    ∀ (l : List Task), (∀ t ∈ l, f t = t ∨ (f t).status ≠ "pending") →
      (pendingScores (l.map f)).Sublist (pendingScores l) := by
  intro l
  induction l with
  | nil => simp [pendingScores]
  | cons t ts ih =>
    intro hf
    have hts : ∀ u ∈ ts, f u = u ∨ (f u).status ≠ "pending" := by
      intro u hu; exact hf u (List.mem_cons_of_mem _ hu)
    rcases hf t (List.mem_cons_self _ _) with heq | hne
    · by_cases hp : t.status = "pending"
      · simpa [pendingScores, heq, hp] using (ih hts).cons₂ t.priority_score
      · have hb : (t.status == "pending") = false := by simpa using hp
        simpa [pendingScores, heq, hb] using ih hts
    · have hb : ((f t).status == "pending") = false := by simpa using hne
      by_cases hp : t.status = "pending"
      · simpa [pendingScores, hb, hp] using (ih hts).trans
          (List.sublist_cons_self t.priority_score (pendingScores ts))
      · have hb' : (t.status == "pending") = false := by simpa using hp
        simpa [pendingScores, hb, hb'] using ih hts

theorem mem_pendingScores {x : Nat} : ∀ {l : List Task},
    x ∈ pendingScores l →
      ∃ t, t ∈ l ∧ t.status = "pending" ∧ t.priority_score = x := by
  intro l
  induction l with
  | nil => simp [pendingScores]
  | cons t ts ih =>
    by_cases hp : t.status = "pending"
    · simp only [pendingScores, hp, beq_self_eq_true, if_true, List.mem_cons]
      rintro (rfl | hx)
      · exact ⟨t, Or.inl rfl, hp, rfl⟩
      · rcases ih hx with ⟨u, hu, h1, h2⟩
        exact ⟨u, Or.inr hu, h1, h2⟩
    · have hb : (t.status == "pending") = false := by simpa using hp
      simp only [pendingScores, hb, Bool.false_eq_true, if_false]
      intro hx
      rcases ih hx with ⟨u, hu, h1, h2⟩
      exact ⟨u, List.mem_cons_of_mem _ hu, h1, h2⟩

/-! ### Lemmas: stable insertion sort -/

theorem mem_sortedInsertLe {le : Task → Task → Bool} {a u : Task} :
    ∀ {l : List Task}, u ∈ sortedInsertLe le a l → u = a ∨ u ∈ l := by
  intro l
  induction l with
  | nil => simp [sortedInsertLe]
  | cons b bs ih =>
    by_cases h : le a b
    · simp only [sortedInsertLe, h, if_true, List.mem_cons]
      rintro (rfl | hu)
      · exact Or.inl rfl
      · exact Or.inr hu
    · simp only [sortedInsertLe, h, Bool.false_eq_true, if_false,
        List.mem_cons]
      rintro (rfl | hu)
      · exact Or.inr (Or.inl rfl)
      · rcases ih hu with h1 | h1
        · exact Or.inl h1
        · exact Or.inr (Or.inr h1)

theorem sortedInsertLe_perm (le : Task → Task → Bool) (a : Task) :
    ∀ (l : List Task), (sortedInsertLe le a l).Perm (a :: l) := by
  intro l
  induction l with
  | nil => simp [sortedInsertLe]
  | cons b bs ih =>
    by_cases h : le a b
    · simp [sortedInsertLe, h]
    · simp only [sortedInsertLe, h, Bool.false_eq_true, if_false]
      exact (ih.cons b).trans (List.Perm.swap a b bs)

theorem insertionSortLe_perm (le : Task → Task → Bool) :
    ∀ (l : List Task), (insertionSortLe le l).Perm l := by
  intro l
  induction l with
  | nil => simp [insertionSortLe]
  | cons a as_ ih =>
    exact (sortedInsertLe_perm le a (insertionSortLe le as_)).trans (ih.cons a)

theorem pairwise_sortedInsertLe {le : Task → Task → Bool}
    (htot : ∀ a b, le a b = true ∨ le b a = true)
    (htrans : ∀ a b c, le a b = true → le b c = true → le a c = true)
    (a : Task) :
    ∀ {l : List Task}, l.Pairwise (fun x y => le x y = true) →
      (sortedInsertLe le a l).Pairwise (fun x y => le x y = true) := by
  intro l
  induction l with
  | nil => intro _; simp [sortedInsertLe]
  | cons b bs ih =>
    intro hp
    rcases List.pairwise_cons.mp hp with ⟨hb, hbs⟩
    by_cases h : le a b
    · simp only [sortedInsertLe, h, if_true]
      refine List.pairwise_cons.mpr ⟨?_, hp⟩
      intro u hu
      rcases List.mem_cons.mp hu with rfl | hu
      · exact h
      · exact htrans a b u h (hb u hu)
    · simp only [sortedInsertLe, h, Bool.false_eq_true, if_false]
      refine List.pairwise_cons.mpr ⟨?_, ih hbs⟩
      intro u hu
      rcases mem_sortedInsertLe hu with rfl | hu
      · rcases htot u b with h1 | h1
        · exact absurd h1 h
        · exact h1
      · exact hb u hu

theorem pairwise_insertionSortLe {le : Task → Task → Bool}
    (htot : ∀ a b, le a b = true ∨ le b a = true)
    (htrans : ∀ a b c, le a b = true → le b c = true → le a c = true) :
    ∀ (l : List Task),
      (insertionSortLe le l).Pairwise (fun x y => le x y = true) := by
  intro l
  induction l with
  | nil => simp [insertionSortLe]
  | cons a as_ ih =>
    exact pairwise_sortedInsertLe htot htrans a ih

theorem optimizerLe_total (a b : Task) :
    optimizerLe a b = true ∨ optimizerLe b a = true := by
  simp only [optimizerLe, decide_eq_true_eq]
  omega

theorem optimizerLe_trans (a b c : Task) :
    optimizerLe a b = true → optimizerLe b c = true →
      optimizerLe a c = true := by
  simp only [optimizerLe, decide_eq_true_eq]
  omega

/-- Between two pending tasks, the optimizer order forces non-increasing
priority scores. -/
theorem optimizerLe_pending_score {a b : Task} (hle : optimizerLe a b = true)
    (ha : a.status = "pending") (hb : b.status = "pending") :
    a.priority_score ≥ b.priority_score := by
  have hka : taskStatusKey a = 0 := by simp [taskStatusKey, ha]
  have hkb : taskStatusKey b = 0 := by simp [taskStatusKey, hb]
  simp only [optimizerLe, decide_eq_true_eq, hka, hkb] at hle
  omega

/-- A queue sorted by the optimizer order has a non-increasing pending
subsequence. -/
theorem pendingScores_pairwise_of_optimizer :
    ∀ {l : List Task}, l.Pairwise (fun x y => optimizerLe x y = true) →
      (pendingScores l).Pairwise (· ≥ ·) := by
  intro l
  induction l with
  | nil => intro _; simp [pendingScores]
  | cons t ts ih =>
    intro hp
    rcases List.pairwise_cons.mp hp with ⟨ht, hts⟩
    by_cases hpend : t.status = "pending"
    · simp only [pendingScores, hpend, beq_self_eq_true, if_true]
      refine List.pairwise_cons.mpr ⟨?_, ih hts⟩
      intro x hx
      rcases mem_pendingScores hx with ⟨u, hu, hupend, rfl⟩
      exact optimizerLe_pending_score (ht u hu) hpend hupend
    · have hb : (t.status == "pending") = false := by simpa using hpend
      simp only [pendingScores, hb, Bool.false_eq_true, if_false]
      exact ih hts

/-! ### Lemmas: operation effects on the queue -/

theorem refreshAgent_task_queue (s : CoordState) (aid : String) (now : Nat) :
    (refreshAgent s aid now).task_queue = s.task_queue := by
  unfold refreshAgent
  cases dictFind s.agents aid with
  | none => rfl
  | some ag =>
    dsimp only
    cases dictFind s.agent_health aid <;> rfl

theorem createTask_some {s s' : CoordState} {ty de pr : String}
    {asg : Option String} {ctx : Option TaskContext}
    {deps : Option (List String)} {tid : String} {now : Nat} {t : Task}
    (h : createTask s ty de pr asg ctx deps tid now = some (t, s')) :
    t.status = "pending" ∧
      s'.task_queue = insertTaskByPriority t s.task_queue := by
  unfold createTask at h
  rcases hps : priorityScoreOf pr with _ | k
  · rw [hps] at h; exact absurd h (by simp)
  · rw [hps] at h
    simp only [Option.some.injEq, Prod.mk.injEq] at h
    rcases h with ⟨ht, hs⟩
    subst ht; subst hs
    exact ⟨rfl, rfl⟩

theorem getNextTask_queue_cases (s : CoordState) (aid role : String)
    (now : Nat) :
    (getNextTask s aid role now).2.task_queue = s.task_queue ∨
    ∃ chosen, (getNextTask s aid role now).2.task_queue =
      s.task_queue.map fun t =>
        if t.id == chosen.id then assignedOf chosen aid now else t := by
  unfold getNextTask
  dsimp only
  split
  next chosen hfind =>
    exact Or.inr ⟨chosen, by simp [refreshAgent_task_queue]⟩
  next hfind =>
    refine Or.inl ?_
    cases dictFind (refreshAgent s aid now).agents aid <;>
      simp [refreshAgent_task_queue]

theorem pendingInv_step (s : CoordState) (op : Op) (hop : safeOp op = true)
    (hs : (pendingScores s.task_queue).Pairwise (· ≥ ·)) :
    (pendingScores (applyOp s op).task_queue).Pairwise (· ≥ ·) := by
  cases op with
  | createT ty de pr asg ctx deps tid now =>
    simp only [applyOp]
    rcases hc : createTask s ty de pr asg ctx deps tid now with _ | p
    · exact hs
    · rcases p with ⟨t, s'⟩
      rcases createTask_some hc with ⟨ht, hq⟩
      rw [hq, pendingScores_insertTaskByPriority ht]
      exact pairwise_ge_insertDesc hs
  | getNextT aid role now =>
    simp only [applyOp]
    rcases getNextTask_queue_cases s aid role now with hq | ⟨chosen, hq⟩
    · rw [hq]; exact hs
    · rw [hq]
      refine List.Pairwise.sublist ?_ hs
      refine pendingScores_map_sublist _ _ ?_
      intro t _
      by_cases hid : t.id == chosen.id
      · right; simp [hid, assignedOf]
      · left; simp [hid]
  | updateT tid st res now => simp [safeOp] at hop
  | recoverT aid now => simp [safeOp] at hop
  | agingT now =>
    simp only [applyOp, agingPass]
    exact pendingScores_pairwise_of_optimizer
      (pairwise_insertionSortLe optimizerLe_total optimizerLe_trans _)

theorem pendingInv_applyOps (ops : List Op) :
    ∀ s : CoordState, (∀ op ∈ ops, safeOp op = true) →
      (pendingScores s.task_queue).Pairwise (· ≥ ·) →
      (pendingScores (applyOps s ops).task_queue).Pairwise (· ≥ ·) := by
  induction ops with
  | nil => intro s _ hs; simpa [applyOps] using hs
  | cons op ops ih =>
    intro s hsafe hs
    have h1 := pendingInv_step s op (hsafe op (List.mem_cons_self _ _)) hs
    have h2 : ∀ o ∈ ops, safeOp o = true := fun o ho =>
      hsafe o (List.mem_cons_of_mem _ ho)
    simpa [applyOps, List.foldl_cons] using ih (applyOp s op) h2 h1


/-! ### Claim C1 -/

/-- C1 (counterexample): the claimed invariant — in every reachable state the
pending tasks appear in non-increasing priority-score order under every
interleaving of `create_task`, `get_next_task`, `update_task`,
`recover_agent` and the aging pass — fails on the concrete reachable state
`applyOps initState c1DemoOps`: a failure-requeued low-priority task sits
ahead of a pending critical task ([1, 4]). -/
theorem C1_pending_priority_counterexample :
    ¬ (pendingScores (applyOps initState c1DemoOps).task_queue).Pairwise
      (· ≥ ·) := by decide

/-- C1 (amended): in every coordinator state reachable from the initial
state by `create_task`, `get_next_task` and the periodic aging pass, the
subsequence of pending tasks in the queue is ordered non-increasingly by
priority score; the failure-requeue of `update_task` and `recover_agent`
can break this order (see the counterexample), and the next aging re-sort
restores it. -/
theorem C1_pending_priority_amended (ops : List Op)
    (hsafe : ∀ op ∈ ops, safeOp op = true) :
    (pendingScores (applyOps initState ops).task_queue).Pairwise (· ≥ ·) :=
  pendingInv_applyOps ops initState hsafe (by simp [initState, pendingScores])

theorem C1_pending_priority_amended_witness :
    (∀ op ∈ c1SafeOps, safeOp op = true) ∧
      (pendingScores (applyOps initState c1SafeOps).task_queue).Pairwise
        (· ≥ ·) :=
  ⟨by decide, C1_pending_priority_amended c1SafeOps (by decide)⟩


/-! ### Claims C4, C5, C10: update_task retry behaviour -/

/-- C4: under `update_task(_, "failed")` the retry-count of every queued
task never exceeds max-retries (3), and a failure hitting a task whose
retry-count already equals 3 — the (max-retries+1)-th failure — leaves it
terminally `failed`: not reset to pending, and `assigned-to` not cleared. -/
theorem C4_retry_bound (s : CoordState) (task_id : String)
    (res : Option String) (now : Nat) (t0 : Task)
    (hmax : s.max_retries = 3)
    (hfind : s.task_queue.find? (fun t => t.id == task_id) = some t0)
    (hq : ∀ u ∈ s.task_queue, u.retry_count ≤ 3) :
    ∃ s' t', updateTask s task_id "failed" res now = some (s', t') ∧
      t'.retry_count ≤ 3 ∧
      (∀ u ∈ s'.task_queue, u.retry_count ≤ 3) ∧
      (t0.retry_count = 3 →
        t'.status = "failed" ∧ t'.retry_count = 3 ∧
          t'.assigned_to = t0.assigned_to) := by
  have h1 : (("failed" : String) == "completed") = false := by decide
  have h2 : (("failed" : String) == "failed") = true := by decide
  have ht0 : t0.retry_count ≤ 3 := hq t0 (List.mem_of_find?_eq_some hfind)
  by_cases hr : t0.retry_count < s.max_retries
  · unfold updateTask
    rw [hfind]
    simp only [h1, h2, Bool.false_eq_true, if_false, if_true, hr]
    have hlt : t0.retry_count + 1 ≤ 3 := by rw [hmax] at hr; omega
    have hne3 : ¬ t0.retry_count = 3 := by rw [hmax] at hr; omega
    cases res with
    | none =>
      refine ⟨_, _, rfl, hlt, ?_, fun h3 => absurd h3 hne3⟩
      intro u hu
      rcases mem_replaceFirstTask hu with rfl | hu
      · exact hlt
      · exact hq u hu
    | some r =>
      refine ⟨_, _, rfl, hlt, ?_, fun h3 => absurd h3 hne3⟩
      intro u hu
      rcases mem_replaceFirstTask hu with rfl | hu
      · exact hlt
      · exact hq u hu
  · unfold updateTask
    rw [hfind]
    simp only [h1, h2, Bool.false_eq_true, if_false, if_true, hr]
    cases res with
    | none =>
      refine ⟨_, _, rfl, ht0, ?_, fun _ => ⟨rfl, ?_, rfl⟩⟩
      · intro u hu
        rcases mem_replaceFirstTask hu with rfl | hu
        · exact ht0
        · exact hq u hu
      · show t0.retry_count = 3
        rw [hmax] at hr; omega
    | some r =>
      refine ⟨_, _, rfl, ht0, ?_, fun _ => ⟨rfl, ?_, rfl⟩⟩
      · intro u hu
        rcases mem_replaceFirstTask hu with rfl | hu
        · exact ht0
        · exact hq u hu
      · show t0.retry_count = 3
        rw [hmax] at hr; omega

theorem C4_retry_bound_witness :
    (c4State.max_retries = 3 ∧
      c4State.task_queue.find? (fun t => t.id == "t4") = some c4Task ∧
      ∀ u ∈ c4State.task_queue, u.retry_count ≤ 3) ∧
    ∃ s' t', updateTask c4State "t4" "failed" none 9 = some (s', t') ∧
      t'.retry_count ≤ 3 ∧
      (∀ u ∈ s'.task_queue, u.retry_count ≤ 3) ∧
      (c4Task.retry_count = 3 →
        t'.status = "failed" ∧ t'.retry_count = 3 ∧
          t'.assigned_to = c4Task.assigned_to) :=
  ⟨⟨by decide, by decide, by decide⟩,
    C4_retry_bound c4State "t4" none 9 c4Task (by decide) (by decide)
      (by decide)⟩

/-- C5 (counterexample): the claimed scenario says the third `failed`
update leaves the freshly created task terminally `failed`; on the code the
third failure still requeues it — after three failures the task is
`pending` with retry-count 3 and no task in the queue is `failed`. -/
theorem C5_retry_scenario_counterexample :
    ((applyOps initState c5Ops3).task_queue.map fun t =>
      (t.status, t.retry_count)) = [("pending", 3)] ∧
    ¬ ∃ t ∈ (applyOps initState c5Ops3).task_queue, t.status = "failed" := by
  decide

/-- C5 (amended): for a freshly created task with max-retries 3, the
statuses progress pending(retry 1), pending(retry 2), pending(retry 3) on
the first three failures, and only the fourth failure leaves the task
terminally `failed` with retry-count 3. -/
theorem C5_retry_scenario_amended :
    ((applyOps initState (c5Ops3.take 2)).task_queue.map fun t =>
      (t.status, t.retry_count)) = [("pending", 1)] ∧
    ((applyOps initState (c5Ops3.take 3)).task_queue.map fun t =>
      (t.status, t.retry_count)) = [("pending", 2)] ∧
    ((applyOps initState c5Ops3).task_queue.map fun t =>
      (t.status, t.retry_count)) = [("pending", 3)] ∧
    ((applyOps initState c5Ops4).task_queue.map fun t =>
      (t.status, t.retry_count)) = [("failed", 3)] := by
  decide

/-- C10: a `failed` update that requeues the task for retry leaves the
whole agent-load table unchanged: `assigned_to` is cleared before the
decrement guard is evaluated, so the decrement never runs; the task itself
comes back `pending` and unassigned. -/
theorem C10_failed_requeue_load_unchanged (s : CoordState) (task_id : String)
    (res : Option String) (now : Nat) (t0 : Task)
    (hfind : s.task_queue.find? (fun t => t.id == task_id) = some t0)
    (hr : t0.retry_count < s.max_retries) :
    ∃ s' t', updateTask s task_id "failed" res now = some (s', t') ∧
      s'.agent_load_balance = s.agent_load_balance ∧
      t'.assigned_to = none ∧ t'.status = "pending" := by
  have h1 : (("failed" : String) == "completed") = false := by decide
  have h2 : (("failed" : String) == "failed") = true := by decide
  unfold updateTask
  rw [hfind]
  simp only [h1, h2, Bool.false_eq_true, if_false, if_true, hr]
  cases res with
  | none => exact ⟨_, _, rfl, rfl, rfl, rfl⟩
  | some r => exact ⟨_, _, rfl, rfl, rfl, rfl⟩

theorem C10_failed_requeue_load_unchanged_witness :
    (c10State.task_queue.find? (fun t => t.id == "t1") = some c10Task ∧
      c10Task.retry_count < c10State.max_retries) ∧
    ∃ s' t', updateTask c10State "t1" "failed" none 2 = some (s', t') ∧
      s'.agent_load_balance = c10State.agent_load_balance ∧
      t'.assigned_to = none ∧ t'.status = "pending" :=
  ⟨⟨by decide, by decide⟩,
    C10_failed_requeue_load_unchanged c10State "t1" none 2 c10Task
      (by decide) (by decide)⟩


/-! ### Claim C6: recover_agent -/

/-- C6: for a registered agent with a health record, `recover_agent`
succeeds, sets that agent's status to `recovering` (other agents
untouched), resets exactly the in-progress tasks assigned to it to
`pending` with `assigned_to` cleared (every other task unchanged), and
resets the agent's error-count to 0. -/
theorem C6_recover_agent (s : CoordState) (agent_id : String) (now : Nat)
    (ag : Agent) (h : AgentHealth)
    (hag : dictFind s.agents agent_id = some ag)
    (hh : dictFind s.agent_health agent_id = some h) :
    (recoverAgent s agent_id now).1 = true ∧
    dictFind (recoverAgent s agent_id now).2.agents agent_id =
      some { ag with status := "recovering" } ∧
    (∀ b, b ≠ agent_id →
      dictFind (recoverAgent s agent_id now).2.agents b =
        dictFind s.agents b) ∧
    (recoverAgent s agent_id now).2.task_queue.length =
      s.task_queue.length ∧
    (∀ i (hi : i < s.task_queue.length)
        (hi2 : i < (recoverAgent s agent_id now).2.task_queue.length),
      (recoverAgent s agent_id now).2.task_queue.get ⟨i, hi2⟩ =
        if (s.task_queue.get ⟨i, hi⟩).assigned_to = some agent_id ∧
            (s.task_queue.get ⟨i, hi⟩).status = "in_progress" then
          { s.task_queue.get ⟨i, hi⟩ with
            status := "pending", assigned_to := none }
        else s.task_queue.get ⟨i, hi⟩) ∧
    (dictFind (recoverAgent s agent_id now).2.agent_health agent_id).map
      (·.error_count) = some 0 := by
  unfold recoverAgent
  rw [hag, hh]
  dsimp only
  refine ⟨rfl, ?_, ?_, ?_, ?_, ?_⟩
  · exact dictFind_dictInsert_self _ _ _
  · intro b hb
    exact dictFind_dictInsert_ne _ _ _ _ hb
  · simp
  · intro i hi hi2
    simp only [List.get_eq_getElem, List.getElem_map]
    by_cases hc : s.task_queue[i].assigned_to = some agent_id ∧
        s.task_queue[i].status = "in_progress"
    · simp [hc.1, hc.2]
    · rw [if_neg hc]
      rcases not_and_or.mp hc with h1 | h1 <;> simp [h1]
  · rw [dictFind_dictInsert_self]
    rfl


theorem C6_recover_agent_witness :
    (dictFind c6State.agents "a1" = some c6Agent ∧
      dictFind c6State.agent_health "a1" = some c6Health) ∧
    ((recoverAgent c6State "a1" 9).1 = true ∧
    dictFind (recoverAgent c6State "a1" 9).2.agents "a1" =
      some { c6Agent with status := "recovering" } ∧
    (∀ b, b ≠ "a1" →
      dictFind (recoverAgent c6State "a1" 9).2.agents b =
        dictFind c6State.agents b) ∧
    (recoverAgent c6State "a1" 9).2.task_queue.length =
      c6State.task_queue.length ∧
    (∀ i (hi : i < c6State.task_queue.length)
        (hi2 : i < (recoverAgent c6State "a1" 9).2.task_queue.length),
      (recoverAgent c6State "a1" 9).2.task_queue.get ⟨i, hi2⟩ =
        if (c6State.task_queue.get ⟨i, hi⟩).assigned_to = some "a1" ∧
            (c6State.task_queue.get ⟨i, hi⟩).status = "in_progress" then
          { c6State.task_queue.get ⟨i, hi⟩ with
            status := "pending", assigned_to := none }
        else c6State.task_queue.get ⟨i, hi⟩) ∧
    (dictFind (recoverAgent c6State "a1" 9).2.agent_health "a1").map
      (·.error_count) = some 0) :=
  ⟨⟨by decide, by decide⟩,
    C6_recover_agent c6State "a1" 9 c6Agent c6Health (by decide)
      (by decide)⟩


/-! ### Claims C7, C8: health scoring -/

/-- C7 (counterexample): the claim says the `poor`/`fair` guards use the
ratio failed/(completed+failed); at completed = 3, failed = 1, no errors and
a fresh heartbeat that formula scores `fair` (1/4 ≤ 0.3, 1/4 > 0.1) while
the code reports `poor` (1 > 0.3·3). -/
theorem C7_health_score_counterexample :
    (getAgentHealthReport c7State "a1" 100).map (·.health) = some "poor" ∧
      specHealthScore 100 c7Health = "fair" := by decide

/-- C7 (amended): for every registered agent with a health record the
reported score is: `critical` if heartbeat age > 5 min, else `poor` if
error-count > 10 or tasks-failed > 0.3 × tasks-completed, else `fair` if
error-count > 5 or tasks-failed > 0.1 × tasks-completed, else `good`. -/
theorem C7_health_score_amended (s : CoordState) (agent_id : String)
    (now : Nat) (ag : Agent) (h : AgentHealth)
    (hag : dictFind s.agents agent_id = some ag)
    (hh : dictFind s.agent_health agent_id = some h) :
    ∃ r, getAgentHealthReport s agent_id now = some r ∧
      r.health = amendedHealthScore now h := by
  unfold getAgentHealthReport
  rw [hag, hh]
  exact ⟨_, rfl, rfl⟩

theorem C7_health_score_amended_witness :
    (dictFind c7State.agents "a1" = some c6Agent ∧
      dictFind c7State.agent_health "a1" = some c7Health) ∧
    ∃ r, getAgentHealthReport c7State "a1" 100 = some r ∧
      r.health = amendedHealthScore 100 c7Health :=
  ⟨⟨by decide, by decide⟩,
    C7_health_score_amended c7State "a1" 100 c6Agent c7Health (by decide)
      (by decide)⟩

/-- C8 (counterexample): the claim treats a zero denominator (no completed
and no failed tasks) as completion rate 1, making an agent-free empty
system `healthy`; the code computes completed/max(1, completed+failed) = 0
and reports `degraded`. -/
theorem C8_system_health_counterexample :
    (getSystemHealth initState 0).status = "degraded" ∧
      specSystemStatus initState 0 = "healthy" := by decide

/-- C8 (amended): `get_system_health` reports `healthy` iff the
unhealthy-agent count is 0 and completed/max(1, completed+failed) > 0.8
(so a zero denominator yields rate 0 and status `degraded`), else
`degraded`. -/
theorem C8_system_health_amended (s : CoordState) (now : Nat) :
    (getSystemHealth s now).status = "healthy" ↔
      (unhealthyAgentCount s now = 0 ∧
        5 * countTasksWithStatus s.task_queue "completed" >
          4 * max 1 (countTasksWithStatus s.task_queue "completed" +
            countTasksWithStatus s.task_queue "failed")) := by
  unfold getSystemHealth
  dsimp only
  by_cases hc : unhealthyAgentCount s now = 0 ∧
      5 * countTasksWithStatus s.task_queue "completed" >
        4 * max 1 (countTasksWithStatus s.task_queue "completed" +
          countTasksWithStatus s.task_queue "failed")
  · rw [if_pos hc]
    exact ⟨fun _ => hc, fun _ => rfl⟩
  · rw [if_neg hc]
    exact ⟨fun h => absurd h (by decide), fun h => absurd h hc⟩


/-! ### Claim C2: finding deduplication -/

theorem isDuplicateFinding_of_mem {s : CoordState} {h : String}
    (f : Finding) (hf : f ∈ s.audit_findings) (hh : f.hash = h)
    (hst : f.status ≠ "resolved") : isDuplicateFinding s h = true := by
  unfold isDuplicateFinding
  apply List.any_eq_true.mpr
  refine ⟨f, hf, ?_⟩
  simp [hh, hst]

theorem submitAuditFinding_duplicate (s : CoordState) (inp : FindingInput)
    (fid tid : String) (now : Nat)
    (hdup : isDuplicateFinding s (generateFindingHash inp) = true) :
    ∃ f, submitAuditFinding s inp fid tid now = some (f, s) ∧
      f.status = "duplicate" := by
  unfold submitAuditFinding
  dsimp only
  rw [hdup]
  exact ⟨_, rfl, rfl⟩

/-- C2: submitting a finding whose hash has no unresolved prior occurrence
returns status `new` and spawns exactly one follow-up task of type `plan`
with priority equal to the finding's severity (queue grows by exactly that
one task); resubmitting the identical finding returns status `duplicate`,
creates no task and leaves the whole state — in particular the queue
length — unchanged. -/
theorem C2_submit_finding_dedup (s : CoordState) (inp : FindingInput)
    (fid tid fid2 tid2 : String) (now now2 : Nat) (k : Nat)
    (hsev : priorityScoreOf inp.severity = some k)
    (hnew : isDuplicateFinding s (generateFindingHash inp) = false) :
    ∃ f1 s1, submitAuditFinding s inp fid tid now = some (f1, s1) ∧
      f1.status = "new" ∧ f1.task_id = some tid ∧
      (∃ task, s1.task_queue.Perm (task :: s.task_queue) ∧ task.id = tid ∧
        task.type = "plan" ∧ task.priority = inp.severity ∧
        task.status = "pending") ∧
      s1.task_queue.length = s.task_queue.length + 1 ∧
      ∃ f2, submitAuditFinding s1 inp fid2 tid2 now2 = some (f2, s1) ∧
        f2.status = "duplicate" := by
  suffices hs : ∃ f1 s1,
      submitAuditFinding s inp fid tid now = some (f1, s1) ∧
      f1.status = "new" ∧ f1.task_id = some tid ∧
      (∃ task, s1.task_queue.Perm (task :: s.task_queue) ∧ task.id = tid ∧
        task.type = "plan" ∧ task.priority = inp.severity ∧
        task.status = "pending") ∧
      s1.task_queue.length = s.task_queue.length + 1 ∧
      isDuplicateFinding s1 (generateFindingHash inp) = true by
    obtain ⟨f1, s1, h1, h2, h3, h4, h5, hdup⟩ := hs
    exact ⟨f1, s1, h1, h2, h3, h4, h5,
      submitAuditFinding_duplicate s1 inp fid2 tid2 now2 hdup⟩
  unfold submitAuditFinding
  dsimp only
  rw [hnew]
  simp only [Bool.false_eq_true, if_false]
  unfold createTask
  rw [hsev]
  dsimp only
  refine ⟨_, _, rfl, rfl, rfl,
    ⟨_, insertTaskByPriority_perm _ _, rfl, rfl, rfl, rfl⟩, ?_, ?_⟩
  · exact insertTaskByPriority_length _ _
  · refine isDuplicateFinding_of_mem _
      (List.mem_append_right _ (List.mem_cons_self _ _)) rfl
      (show ("new" : String) ≠ "resolved" by decide)


theorem C2_submit_finding_dedup_witness :
    (priorityScoreOf c2Input.severity = some 4 ∧
      isDuplicateFinding initState (generateFindingHash c2Input) = false) ∧
    (∃ f1 s1, submitAuditFinding initState c2Input "f1" "t1" 0 =
        some (f1, s1) ∧
      f1.status = "new" ∧ f1.task_id = some "t1" ∧
      (∃ task, s1.task_queue.Perm (task :: initState.task_queue) ∧
        task.id = "t1" ∧ task.type = "plan" ∧
        task.priority = c2Input.severity ∧ task.status = "pending") ∧
      s1.task_queue.length = initState.task_queue.length + 1 ∧
      ∃ f2, submitAuditFinding s1 c2Input "f2" "t9" 1 = some (f2, s1) ∧
        f2.status = "duplicate") :=
  ⟨⟨by decide, by decide⟩,
    C2_submit_finding_dedup initState c2Input "f1" "t1" "f2" "t9" 0 1 4
      (by decide) (by decide)⟩

/-! ### Claim C9: persistence round-trip -/

/-- C9: restoring from the document `save_state` serializes (top-level
fields agents, task_queue, audit_findings, knowledge_base, agent_health,
saved_at) onto a fresh coordinator reproduces the agents collection, the
ordered task queue, the findings list and every per-agent health record of
the saved state. -/
theorem C9_save_load_roundtrip (s s0 : CoordState) (now : Nat) :
    (restoreState (saveStateDoc s now) s0).agents = s.agents ∧
    (restoreState (saveStateDoc s now) s0).task_queue = s.task_queue ∧
    (restoreState (saveStateDoc s now) s0).audit_findings =
      s.audit_findings ∧
    (restoreState (saveStateDoc s now) s0).agent_health = s.agent_health := by
  refine ⟨rfl, rfl, rfl, ?_⟩
  show (s.agent_health.map fun p => (p.1, healthToDoc p.2)).map
      (fun p => (p.1, healthOfDoc p.2)) = s.agent_health
  rw [List.map_map]
  have hmap : ∀ l : List (String × AgentHealth),
      l.map ((fun p => (p.1, healthOfDoc p.2)) ∘
        (fun p => (p.1, healthToDoc p.2))) = l := by
    intro l
    induction l with
    | nil => rfl
    | cons p ps ih => exact congrArg (List.cons p) ih
  exact hmap _


/-! ### Claim C3: assignment safety -/

theorem dependenciesMet_spec (queue : List Task) (t : Task)
    (h : dependenciesMet queue t = true) :
    ∀ dep ∈ t.dependencies,
      ∃ q ∈ queue, q.id = dep ∧ q.status = "completed" := by
  intro dep hdep
  have hall := (List.all_eq_true.mp h) dep hdep
  cases hf : queue.find? (fun q => q.id == dep) with
  | none => rw [dependenciesMet] at h; rw [hf] at hall; simp at hall
  | some q =>
    rw [hf] at hall
    exact ⟨q, List.mem_of_find?_eq_some hf,
      by simpa using List.find?_some hf, by simpa using hall⟩

theorem getNextTask_some_spec (s : CoordState) (a r : String) (now : Nat)
    (t : Task) (h : (getNextTask s a r now).1 = some t) :
    ∃ chosen, chosen ∈ s.task_queue ∧
      candidateOk (refreshAgent s a now) a r
        (dictGetD (refreshAgent s a now).agent_capabilities_cache a [])
        chosen = true ∧
      t = assignedOf chosen a now ∧
      (getNextTask s a r now).2.task_queue = s.task_queue.map fun u =>
        if u.id == chosen.id then assignedOf chosen a now else u := by
  unfold getNextTask at h ⊢
  dsimp only at h ⊢
  split at h
  next chosen hfind =>
    refine ⟨chosen, ?_, List.find?_some hfind, ?_, ?_⟩
    · have hmem := List.mem_of_find?_eq_some hfind
      rw [(insertionSortLe_perm scoreDescLe _).mem_iff,
        refreshAgent_task_queue] at hmem
      exact hmem
    · simpa using h.symm
    · simp [refreshAgent_task_queue]
  next hfind => simp at h

theorem ids_map_assign (queue : List Task) (c : Task) (a : String)
    (now : Nat) :
    (queue.map fun u =>
      if u.id == c.id then assignedOf c a now else u).map Task.id =
      queue.map Task.id := by
  rw [List.map_map]
  apply List.map_congr_left
  intro u _
  by_cases h : u.id == c.id
  · have : u.id = c.id := by simpa using h
    simp [Function.comp, h, assignedOf, this]
  · simp [Function.comp, h]

/-- C3: when ids are unique, every task returned by `get_next_task` has all
its dependencies present in the queue with status `completed` (checked
against the pre-call queue), and an immediately following `get_next_task`
call — by any agent — never returns the same task, since the first call left
it `in_progress`. -/
theorem C3_assignment_safety (s : CoordState) (a1 r1 : String) (now1 : Nat)
    (a2 r2 : String) (now2 : Nat) (t1 : Task)
    (hnd : (s.task_queue.map Task.id).Nodup)
    (h1 : (getNextTask s a1 r1 now1).1 = some t1) :
    (∀ dep ∈ t1.dependencies,
      ∃ q ∈ s.task_queue, q.id = dep ∧ q.status = "completed") ∧
    ∀ t2, (getNextTask (getNextTask s a1 r1 now1).2 a2 r2 now2).1 =
        some t2 → t2.id ≠ t1.id := by
  obtain ⟨c1, hc1mem, hc1ok, ht1, hq1⟩ :=
    getNextTask_some_spec s a1 r1 now1 t1 h1
  have hok := hc1ok
  unfold candidateOk at hok
  simp only [Bool.and_eq_true] at hok
  obtain ⟨⟨⟨⟨hpend1, _⟩, hdeps1⟩, _⟩, _⟩ := hok
  rw [refreshAgent_task_queue] at hdeps1
  constructor
  · intro dep hdep
    have : dep ∈ c1.dependencies := by
      simpa [ht1, assignedOf] using hdep
    exact dependenciesMet_spec s.task_queue c1 hdeps1 dep this
  · intro t2 h2 heq
    obtain ⟨c2, hc2mem, hc2ok, ht2, _⟩ :=
      getNextTask_some_spec _ a2 r2 now2 t2 h2
    have hok2 := hc2ok
    unfold candidateOk at hok2
    simp only [Bool.and_eq_true] at hok2
    obtain ⟨⟨⟨⟨hpend2, _⟩, _⟩, _⟩, _⟩ := hok2
    have ht1mem : t1 ∈ (getNextTask s a1 r1 now1).2.task_queue := by
      rw [hq1]
      have := List.mem_map_of_mem
        (fun u => if u.id == c1.id then assignedOf c1 a1 now1 else u) hc1mem
      simpa [ht1] using this
    have hnd1 : ((getNextTask s a1 r1 now1).2.task_queue.map Task.id).Nodup := by
      rw [hq1, ids_map_assign]
      exact hnd
    have hc2id : c2.id = t1.id := by
      have hid : t2.id = c2.id := by simp [ht2, assignedOf]
      rw [← hid]
      exact heq
    have hceq : c2 = t1 :=
      List.inj_on_of_nodup_map hnd1 hc2mem ht1mem hc2id
    have : c2.status = "pending" := by simpa using hpend2
    rw [hceq] at this
    rw [ht1] at this
    simp [assignedOf] at this


theorem C3_assignment_safety_witness :
    ((c3State.task_queue.map Task.id).Nodup ∧
      (getNextTask c3State "a1" "coder" 7).1 =
        some (assignedOf c3Task "a1" 7)) ∧
    ((∀ dep ∈ (assignedOf c3Task "a1" 7).dependencies,
        ∃ q ∈ c3State.task_queue, q.id = dep ∧ q.status = "completed") ∧
      ∀ t2, (getNextTask (getNextTask c3State "a1" "coder" 7).2 "a2"
          "coder" 8).1 = some t2 → t2.id ≠ (assignedOf c3Task "a1" 7).id) :=
  ⟨⟨by decide, by decide⟩,
    C3_assignment_safety c3State "a1" "coder" 7 "a2" "coder" 8 _
      (by decide) (by decide)⟩


end Coordinator
